import Mathlib

/-!
Shallow embedding of the BehavePlus5 equation-calculator core
(`src/xeqcalc.cpp`, `src/xeqcalcreconfig.cpp`).

Doubles are modelled as rationals (`ℚ`); the claims under study concern
comparisons, guards and dataflow that are exact in this model.  External
library routines (the fireline physics library `FBL_*`, the containment
simulator) are modelled as parameters or as abstract result records, as the
specification treats them as external collaborators.
-/

namespace BehavePlus

/-! ### EqCalc::WindDirFromUpslope (xeqcalc.cpp:6196) -/

/-- The value `dd` computed by `EqCalc::WindDirFromUpslope` just before the
0.5-degree snap-to-zero: convert the source wind direction `wd` to a wind
vector by subtracting 180 (adding 360 if negative), then subtract the
upslope direction `sd` (adding 360 if negative). -/
def windDirRaw (sd wd : ℚ) : ℚ :=
  let wd1 := wd - 180
  let wd2 := if wd1 < 0 then wd1 + 360 else wd1
  let dd := wd2 - sd
  if dd < 0 then dd + 360 else dd

/-- `EqCalc::WindDirFromUpslope`: the stored `vWindDirFromUpslope` value.
The raw angle is snapped to 0 when its absolute value is below 0.5. -/
def windDirFromUpslope (sd wd : ℚ) : ℚ :=
  let dd := windDirRaw sd wd
  if |dd| < 1/2 then 0 else dd

/-! ### EqCalc::ContainFF / EqCalc::ContainFFSingle (xeqcalc.cpp:135,529)

The containment simulator (`ContainSim`, external to this repository) is
modelled by its post-`run()` fields that the status/size mapping reads. -/

/-- Post-`run()` fields of the external containment simulator read by the
status/size mapping in `ContainFF` and `ContainFFSingle`:
`sim->m_left->m_status` (8-valued terminal status), `sim->m_finalSize`,
and `sim->m_finalLine` (fireline length built). -/
structure ContainSimResult where
  status : Fin 8
  finalSize : ℚ
  finalLine : ℚ

/-- The crosswalk table `Status[8]` from simulator status codes
(0=Unreported, 1=Reported, 2=Attacked, 3=Contained, 4=Overrun,
5=Exhausted, 6=Overflow, 7=DistLimit) to BehavePlus status codes
(0=Contained, 1=Withdrawn, 2=Escaped), from `EqCalc::ContainFF`. -/
def containStatusXwalk : Fin 8 → ℕ := ![2, 2, 2, 0, 1, 2, 2, 2]

/-- The status/size mapping of `EqCalc::ContainFF`: crosswalk the simulator
status, keep the simulator's final size, then if the result is neither 0
nor 3 force the final size to -1 and resolve the status from the fireline
length built.  Returns the stored `(vContainStatus, vContainSize)` pair. -/
def containFF_statusSize (sim : ContainSimResult) : ℕ × ℚ :=
  let status0 := containStatusXwalk sim.status
  let finalSize0 := sim.finalSize
  let finalSize := if status0 ≠ 0 ∧ status0 ≠ 3 then -1 else finalSize0
  let status :=
    if status0 ≠ 0 ∧ status0 ≠ 3 then (if sim.finalLine > 0 then 1 else 2)
    else status0
  (status, finalSize)

/-- The status/size mapping of `EqCalc::ContainFFSingle`, textually the same
code as in `EqCalc::ContainFF`. -/
def containFFSingle_statusSize (sim : ContainSimResult) : ℕ × ℚ :=
  let status0 := containStatusXwalk sim.status
  let finalSize0 := sim.finalSize
  let finalSize := if status0 ≠ 0 ∧ status0 ≠ 3 then -1 else finalSize0
  let status :=
    if status0 ≠ 0 ∧ status0 ≠ 3 then (if sim.finalLine > 0 then 1 else 2)
    else status0
  (status, finalSize)

/-! ### EqCalc::FuelBedIntermediates (xeqcalc.cpp:3428)

`MaxParts = 8` fuel particle slots (xeqcalc.cpp:55); slot 3 is the live
herbaceous particle (`LiveHerb`), slot 5 the dead herbaceous particle
(`DeadHerb`).  The threshold `SMIDGEN` is declared in the external fireline
library header, so it is carried as a parameter. -/

/-- Inputs of `EqCalc::FuelBedIntermediates` relevant to the load
accumulation, herbaceous load transfer and dead-load fraction: per-particle
loads `load[p]`, per-particle life categories `life[p]` (0=Dead, 1=Herb,
2=Wood, 3=Litter), the load-transfer-equation selector
(`vSurfaceFuelLoadTransferEq` item index) and the transfer fraction
(`vSurfaceFuelLoadTransferFraction`). -/
structure FBIInputs where
  load : Fin 8 → ℚ
  life : Fin 8 → ℤ
  transferEq : ℤ
  transferFraction : ℚ

/-- Outputs of `EqCalc::FuelBedIntermediates` relevant to the claims:
`vSurfaceFuelLoadDeadHerb` (= `load[5]` after transfer),
`vSurfaceFuelLoadUndeadHerb` (= `load[3]` after transfer),
`vSurfaceFuelLoadDead`, `vSurfaceFuelLoadLive`,
`vSurfaceFuelBedDeadFraction`, `vSurfaceFuelBedLiveFraction`. -/
structure FBIOutputs where
  loadDeadHerb : ℚ
  loadUndeadHerb : ℚ
  loadDead : ℚ
  loadLive : ℚ
  deadFraction : ℚ
  liveFraction : ℚ

/-- The dead-load accumulator of `EqCalc::FuelBedIntermediates`: the sum of
`load[p]` over particles with `life[p] == 0 || life[p] == 3`. -/
def fbiDeadLoadRaw (x : FBIInputs) : ℚ :=
  ∑ p : Fin 8, if x.life p = 0 ∨ x.life p = 3 then x.load p else 0

/-- The live-load accumulator of `EqCalc::FuelBedIntermediates`: the sum of
`load[p]` over the remaining particles. -/
def fbiLiveLoadRaw (x : FBIInputs) : ℚ :=
  ∑ p : Fin 8, if x.life p = 0 ∨ x.life p = 3 then 0 else x.load p

/-- The load-accumulation / load-transfer / dead-fraction portion of
`EqCalc::FuelBedIntermediates` (xeqcalc.cpp:3433-3499).  `fraction` is the
transfer fraction when the transfer-equation selector is non-zero and 0
otherwise; the transfer runs only when `fraction > 0.00001`, moving
`fraction * load[LiveHerb]` from the live-herb slot to the dead-herb slot;
the dead-load fraction is 0 when the total load is below `smidgen` and
`deadLoad / totalLoad` otherwise. -/
def fuelBedIntermediates (smidgen : ℚ) (x : FBIInputs) : FBIOutputs :=
  let deadLoad0 := fbiDeadLoadRaw x
  let liveLoad0 := fbiLiveLoadRaw x
  let fraction : ℚ := if x.transferEq ≠ 0 then x.transferFraction else 0
  let xfer := fraction * x.load 3
  let loadDeadHerb := if fraction > 1/100000 then xfer else x.load 5
  let loadLiveHerb := if fraction > 1/100000 then x.load 3 - xfer else x.load 3
  let deadLoad := if fraction > 1/100000 then deadLoad0 + xfer else deadLoad0
  let liveLoad := if fraction > 1/100000 then liveLoad0 - xfer else liveLoad0
  let totalLoad := deadLoad + liveLoad
  let deadFraction := if totalLoad < smidgen then 0 else deadLoad / totalLoad
  { loadDeadHerb := loadDeadHerb
    loadUndeadHerb := loadLiveHerb
    loadDead := deadLoad
    loadLive := liveLoad
    deadFraction := deadFraction
    liveFraction := 1 - deadFraction }

/-! ### EqCalc::FuelBedWeighted blend stage (xeqcalc.cpp:3959-4069)

The two per-fuel-model passes capture scalars into parallel arrays; the
blend stage combines them.  A pass's captured scalars (plus the model's
fuel-bed depth `fm[i]->m_depth`) form a `PassOutputs` record.  The Finney
two-dimensional expected-spread-rate sampler
(`FBL_SurfaceFireExpectedSpreadRate`) is external to the repository and is
carried as a parameter. -/

/-- The scalars captured during one per-fuel-model pass of
`EqCalc::FuelBedWeighted`: `rosh[i]`, `rosv[i]`, `rxi[i]`, `mxd[i]`,
`waf[i]`, `wmf[i]`, `ewsh[i]`, `ewsv[i]`, `wsl[i]`, `wsf[i]` (the
wind-limit-exceeded flag, stored as 0/1 and modelled as `Bool`), `flw[i]`,
`hua[i]`, `flih[i]`, `fliv[i]`, `flh[i]`, `flv[i]`, plus the model's
fuel-bed depth `fm[i]->m_depth`. -/
structure PassOutputs where
  rosh : ℚ
  rosv : ℚ
  rxi : ℚ
  mxd : ℚ
  waf : ℚ
  wmf : ℚ
  ewsh : ℚ
  ewsv : ℚ
  wsl : ℚ
  wsf : Bool
  flw : ℚ
  hua : ℚ
  flih : ℚ
  fliv : ℚ
  flh : ℚ
  flv : ℚ
  depth : ℚ

/-- The two-fuel-model configuration read by the blend stage: the three
mutually-exclusive weighting-method properties
(`surfaceConfFuelAreaWeighted`, `surfaceConfFuelHarmonicMean`,
`surfaceConfFuel2Dimensional`), and the parameters handed to the external
two-dimensional sampler (`vSurfaceFireLengthToWidth` current value and the
`surfaceConfFuel2DSamples/Depth/Laterals` integer properties). -/
structure BlendConfig where
  areaWeighted : Bool
  harmonicMean : Bool
  twoDimensional : Bool
  lbRatio : ℚ
  samples : ℤ
  sdepth : ℤ
  laterals : ℤ

/-- Signature of the external sampler
`FBL_SurfaceFireExpectedSpreadRate( ros, cov, 2, lbRatio, samples, depth,
laterals )`: two spread rates, two coverages, the length-to-width ratio and
the three integer sampling parameters. -/
def Sampler2D : Type := ℚ → ℚ → ℚ → ℚ → ℚ → ℤ → ℤ → ℤ → ℚ

/-- The weighting-method dispatch of `EqCalc::FuelBedWeighted`
(xeqcalc.cpp:3959-3997): the `(wtdh, wtdv)` pair.  Area-weighted: linear
combination.  Harmonic mean: `1/(cov0/ros0 + cov1/ros1)` guarded by both
head rates exceeding 0.000001, else 0.  Two-dimensional: delegate to the
external sampler.  If no method property is set, both stay 0. -/
def weightedSpreadPair (f2d : Sampler2D) (cfg : BlendConfig)
    (m0 m1 : PassOutputs) (cov0 : ℚ) : ℚ × ℚ :=
  let cov1 := 1 - cov0
  if cfg.areaWeighted then
    (cov0 * m0.rosh + cov1 * m1.rosh, cov0 * m0.rosv + cov1 * m1.rosv)
  else if cfg.harmonicMean then
    if m0.rosh > 1/1000000 ∧ m1.rosh > 1/1000000 then
      (1 / (cov0 / m0.rosh + cov1 / m1.rosh),
       1 / (cov0 / m0.rosv + cov1 / m1.rosv))
    else (0, 0)
  else if cfg.twoDimensional then
    (f2d m0.rosh m1.rosh cov0 cov1 cfg.lbRatio cfg.samples cfg.sdepth cfg.laterals,
     f2d m0.rosv m1.rosv cov0 cov1 cfg.lbRatio cfg.samples cfg.sdepth cfg.laterals)
  else (0, 0)

/-- The blended outputs stored by `EqCalc::FuelBedWeighted` after its blend
stage: spread rate at head and vector, then the fifteen non-spread
outputs. -/
structure BlendResult where
  rosHead : ℚ
  rosVector : ℚ
  rxi : ℚ
  mxd : ℚ
  waf : ℚ
  wmf : ℚ
  ewsh : ℚ
  ewsv : ℚ
  wsl : ℚ
  wsf : Bool
  flw : ℚ
  hua : ℚ
  flih : ℚ
  fliv : ℚ
  flh : ℚ
  flv : ℚ
  bedDepth : ℚ

/-- The blend stage of `EqCalc::FuelBedWeighted` (xeqcalc.cpp:3959-4069).
Spread rates come from `weightedSpreadPair`.  If either coverage exceeds
0.999 the dominant model's captured values are copied verbatim into every
non-spread output; otherwise the per-output aggregation rules of the
`else` branch apply (max / first-model / min / logical-or). -/
def fuelBedWeightedBlend (f2d : Sampler2D) (cfg : BlendConfig)
    (m0 m1 : PassOutputs) (cov0 : ℚ) : BlendResult :=
  let cov1 := 1 - cov0
  let wtd := weightedSpreadPair f2d cfg m0 m1 cov0
  if cov0 > 999/1000 ∨ cov1 > 999/1000 then
    let mi := if cov0 > 999/1000 then m0 else m1
    { rosHead := wtd.1, rosVector := wtd.2
      rxi := mi.rxi, mxd := mi.mxd, waf := mi.waf, wmf := mi.wmf
      ewsh := mi.ewsh, ewsv := mi.ewsv, wsl := mi.wsl, wsf := mi.wsf
      flw := mi.flw, hua := mi.hua, flih := mi.flih, fliv := mi.fliv
      flh := mi.flh, flv := mi.flv, bedDepth := mi.depth }
  else
    { rosHead := wtd.1, rosVector := wtd.2
      rxi := if m0.rxi > m1.rxi then m0.rxi else m1.rxi
      mxd := m0.mxd
      waf := m0.waf
      wmf := m0.wmf
      ewsh := m0.ewsh
      ewsv := m0.ewsv
      wsl := if m0.wsl < m1.wsl then m0.wsl else m1.wsl
      wsf := m0.wsf || m1.wsf
      flw := m0.flw
      hua := if m0.hua > m1.hua then m0.hua else m1.hua
      flih := if m0.flih > m1.flih then m0.flih else m1.flih
      fliv := if m0.fliv > m1.fliv then m0.fliv else m1.fliv
      flh := if m0.flh > m1.flh then m0.flh else m1.flh
      flv := if m0.flv > m1.flv then m0.flv else m1.flv
      bedDepth := if m0.depth > m1.depth then m0.depth else m1.depth }

/-- A trivial instance of the external two-dimensional sampler, used to
instantiate theorems at concrete inputs. -/
def zeroSampler : Sampler2D := fun _ _ _ _ _ _ _ _ => 0

/-- A concrete blend configuration selecting the area-weighted method. -/
def cfgAW : BlendConfig :=
  { areaWeighted := true, harmonicMean := false, twoDimensional := false
    lbRatio := 1, samples := 0, sdepth := 0, laterals := 0 }

/-- A concrete blend configuration selecting the harmonic-mean method. -/
def cfgHM : BlendConfig :=
  { areaWeighted := false, harmonicMean := true, twoDimensional := false
    lbRatio := 1, samples := 0, sdepth := 0, laterals := 0 }

/-- A concrete captured pass whose head spread rate is 0. -/
def passA : PassOutputs :=
  { rosh := 0, rosv := 2, rxi := 3, mxd := 4, waf := 5, wmf := 6
    ewsh := 7, ewsv := 8, wsl := 9, wsf := false, flw := 10, hua := 11
    flih := 12, fliv := 13, flh := 14, flv := 15, depth := 16 }

/-- A concrete captured pass whose head spread rate is 5. -/
def passB : PassOutputs :=
  { rosh := 5, rosv := 20, rxi := 30, mxd := 40, waf := 50, wmf := 60
    ewsh := 70, ewsv := 80, wsl := 90, wsf := true, flw := 100, hua := 110
    flih := 120, fliv := 130, flh := 140, flv := 150, depth := 160 }

/-- A concrete fuel-bed input: live-herb load 4 in slot 3, transfer
equation 1, transfer fraction 1/2. -/
def xfbi : FBIInputs :=
  { load := ![1, 1, 1, 4, 0, 0, 0, 0]
    life := ![0, 0, 2, 1, 2, 0, 0, 0]
    transferEq := 1
    transferFraction := 1/2 }

/-! ### ReconfigurationEngine (xeqcalcreconfig.cpp)

The configuration (`PropertyDict`) is a read-only boolean property lookup.
The mutable graph state relevant to the Contain and Surface module
procedures is collected in `EqStateR`: one field per `m_active`,
`m_isUserOutput`, `m_isConstant`, `m_isUserInput` flag, native value, item
index, or label that `reconfigureContainModule` or
`reconfigureSurfaceModule` writes.  Every field defaults to the cleared
initial graph state (inactive, unmasked, zero). -/

/-- Read-only boolean property lookup (`PropertyDict::boolean`). -/
def PropertyDict : Type := String → Bool

/-- The graph flags written by `EqCalc::reconfigureContainModule` and
`EqCalc::reconfigureSurfaceModule`.  Defaults give the initial graph state:
every function inactive, every variable unmasked with value 0. -/
structure EqStateR where
  fContainFF_active : Bool := false
  fContainFFSingle_active : Bool := false
  fContainFFReportSpread_active : Bool := false
  fContainFFReportRatio_active : Bool := false
  fContainFFReportSize_active : Bool := false
  vContainResourceName_isConstant : Bool := false
  vContainLimitDist_isConstant : Bool := false
  vContainLimitDist_isUserInput : Bool := false
  vContainLine_isUserOutput : Bool := false
  vContainResourcesUsed_isUserOutput : Bool := false
  vContainSize_isUserOutput : Bool := false
  vContainStatus_isUserOutput : Bool := false
  vContainTime_isUserOutput : Bool := false
  vContainCost_isUserOutput : Bool := false
  vContainDiagram_isUserOutput : Bool := false
  vContainAttackPerimeter_isUserOutput : Bool := false
  vContainAttackSize_isUserOutput : Bool := false
  vContainResourceBaseCost_isConstant : Bool := false
  vContainResourceHourCost_isConstant : Bool := false
  fMapScale_active : Bool := false
  fMapSlope_active : Bool := false
  fSiteSlopeFraction_active : Bool := false
  fSiteUpslopeDirFromNorth_active : Bool := false
  fSurfaceFireCharacteristicsDiagram_active : Bool := false
  fSurfaceFireDistAtHead_active : Bool := false
  fSurfaceFireDistAtVector_active : Bool := false
  fSurfaceFireEccentricity_active : Bool := false
  fSurfaceFireEffWindAtVector_active : Bool := false
  fSurfaceFireFlameLengAtHead_active : Bool := false
  fSurfaceFireFlameLengAtVector_active : Bool := false
  fSurfaceFireHeatPerUnitArea_active : Bool := false
  fSurfaceFireHeatSource_active : Bool := false
  fSurfaceFireLengthToWidth_active : Bool := false
  fSurfaceFireLineIntAtHead_active : Bool := false
  fSurfaceFireLineIntAtVector_active : Bool := false
  fSurfaceFireMapDistAtHead_active : Bool := false
  fSurfaceFireMapDistAtVector_active : Bool := false
  fSurfaceFireMaxDirDiagram_active : Bool := false
  fSurfaceFireMaxDirFromNorth_active : Bool := false
  fSurfaceFireNoWindRate_active : Bool := false
  fSurfaceFirePropagatingFlux_active : Bool := false
  fSurfaceFireReactionInt_active : Bool := false
  fSurfaceFireResidenceTime_active : Bool := false
  fSurfaceFireSpreadAtBack_active : Bool := false
  fSurfaceFireSpreadAtBeta_active : Bool := false
  fSurfaceFireSpreadAtHead_active : Bool := false
  fSurfaceFireVectorBeta_active : Bool := false
  fSurfaceFireVectorDirFromUpslope_active : Bool := false
  fSurfaceFuelAspenModel_active : Bool := false
  fSurfaceFuelAspenParms_active : Bool := false
  fSurfaceFuelBedHeatSink_active : Bool := false
  fSurfaceFuelBedIntermediates_active : Bool := false
  fSurfaceFuelBedModel_active : Bool := false
  fSurfaceFuelBedParms_active : Bool := false
  fSurfaceFuelBedWeighted_active : Bool := false
  fSurfaceFuelLoadTransferFraction_active : Bool := false
  fSurfaceFuelMoisLifeClass_active : Bool := false
  fSurfaceFuelMoisScenarioModel_active : Bool := false
  fSurfaceFuelMoisTimeLag_active : Bool := false
  fSurfaceFuelPalmettoModel_active : Bool := false
  fSurfaceFuelPalmettoParms_active : Bool := false
  fTreeCrownRatio_active : Bool := false
  fTreeMortalityRateAspenAtVector_active : Bool := false
  fWindAdjFactor_active : Bool := false
  fWindDirFromUpslope_active : Bool := false
  fWindSpeedAt20Ft_active : Bool := false
  fWindSpeedAtMidflame_active : Bool := false
  vSiteSlopeDegrees_isUserOutput : Bool := false
  vSiteSlopeFraction_isUserOutput : Bool := false
  vSiteSlopeReach_isUserOutput : Bool := false
  vSiteSlopeRise_isUserOutput : Bool := false
  vSurfaceFireCharacteristicsDiagram_isUserOutput : Bool := false
  vSurfaceFireDistAtHead_isUserOutput : Bool := false
  vSurfaceFireDistAtVector_isUserOutput : Bool := false
  vSurfaceFireEffWindAtHead_isUserOutput : Bool := false
  vSurfaceFireEffWindAtVector_isUserOutput : Bool := false
  vSurfaceFireFlameLengAtHead_isUserOutput : Bool := false
  vSurfaceFireFlameLengAtVector_isUserOutput : Bool := false
  vSurfaceFireHeatPerUnitArea_isUserOutput : Bool := false
  vSurfaceFireHeatSource_isUserOutput : Bool := false
  vSurfaceFireLineIntAtHead_isUserOutput : Bool := false
  vSurfaceFireLineIntAtVector_isUserOutput : Bool := false
  vSurfaceFireMapDistAtVector_isUserOutput : Bool := false
  vSurfaceFireMaxDirDiagram_isUserOutput : Bool := false
  vSurfaceFireMaxDirFromNorth_isUserOutput : Bool := false
  vSurfaceFireMaxDirFromUpslope_isUserOutput : Bool := false
  vSurfaceFireReactionInt_isUserOutput : Bool := false
  vSurfaceFireReactionIntDead_isUserOutput : Bool := false
  vSurfaceFireReactionIntLive_isUserOutput : Bool := false
  vSurfaceFireResidenceTime_isUserOutput : Bool := false
  vSurfaceFireSlopeFactor_isUserOutput : Bool := false
  vSurfaceFireSpreadAtHead_isUserOutput : Bool := false
  vSurfaceFireSpreadAtVector_isUserOutput : Bool := false
  vSurfaceFireWindFactor_isUserOutput : Bool := false
  vSurfaceFireWindSpeedFlag_isUserOutput : Bool := false
  vSurfaceFireWindSpeedLimit_isUserOutput : Bool := false
  vSurfaceFuelAspenLoadDead1_isUserOutput : Bool := false
  vSurfaceFuelAspenLoadDead10_isUserOutput : Bool := false
  vSurfaceFuelAspenLoadLiveHerb_isUserOutput : Bool := false
  vSurfaceFuelAspenLoadLiveWoody_isUserOutput : Bool := false
  vSurfaceFuelAspenSavrDead1_isUserOutput : Bool := false
  vSurfaceFuelAspenSavrDead10_isUserOutput : Bool := false
  vSurfaceFuelAspenSavrLiveHerb_isUserOutput : Bool := false
  vSurfaceFuelAspenSavrLiveWoody_isUserOutput : Bool := false
  vSurfaceFuelBedBetaRatio_isUserOutput : Bool := false
  vSurfaceFuelBedBulkDensity_isUserOutput : Bool := false
  vSurfaceFuelBedDeadFraction_isUserOutput : Bool := false
  vSurfaceFuelBedDepth_isUserOutput : Bool := false
  vSurfaceFuelBedHeatSink_isUserOutput : Bool := false
  vSurfaceFuelBedLiveFraction_isUserOutput : Bool := false
  vSurfaceFuelBedMextLive_isUserOutput : Bool := false
  vSurfaceFuelBedMoisDead_isUserOutput : Bool := false
  vSurfaceFuelBedMoisLive_isUserOutput : Bool := false
  vSurfaceFuelBedPackingRatio_isUserOutput : Bool := false
  vSurfaceFuelBedSigma_isUserOutput : Bool := false
  vSurfaceFuelLoadDead_isUserOutput : Bool := false
  vSurfaceFuelLoadDeadHerb_isUserOutput : Bool := false
  vSurfaceFuelLoadLive_isUserOutput : Bool := false
  vSurfaceFuelLoadTransferFraction_isUserOutput : Bool := false
  vSurfaceFuelLoadUndeadHerb_isUserOutput : Bool := false
  vSurfaceFuelPalmettoLoadDead1_isUserOutput : Bool := false
  vSurfaceFuelPalmettoLoadDead10_isUserOutput : Bool := false
  vSurfaceFuelPalmettoLoadDeadFoliage_isUserOutput : Bool := false
  vSurfaceFuelPalmettoLoadLitter_isUserOutput : Bool := false
  vSurfaceFuelPalmettoLoadLive1_isUserOutput : Bool := false
  vSurfaceFuelPalmettoLoadLive10_isUserOutput : Bool := false
  vSurfaceFuelPalmettoLoadLiveFoliage_isUserOutput : Bool := false
  vTreeCanopyCrownFraction_isUserOutput : Bool := false
  vTreeCrownRatio_isUserOutput : Bool := false
  vTreeMortalityRateAspenAtVector_isUserOutput : Bool := false
  vWindAdjFactor_isUserOutput : Bool := false
  vWindAdjMethod_isUserOutput : Bool := false
  vWindSpeedAtMidflame_isUserOutput : Bool := false
  vSurfaceFireVectorBeta_isConstant : Bool := false
  vSurfaceFireVectorDirFromUpslope_isConstant : Bool := false
  vSurfaceFuelBedDepth_isConstant : Bool := false
  vSurfaceFuelLoadDeadHerb_isConstant : Bool := false
  vSurfaceFuelLoadTransferEq_isConstant : Bool := false
  vSurfaceFuelLoadTransferFraction_isConstant : Bool := false
  vSurfaceFuelMoisDead1000_isConstant : Bool := false
  vTreeCanopyCrownFraction_isConstant : Bool := false
  vWindAdjFactor_isConstant : Bool := false
  vWindAdjMethod_isConstant : Bool := false
  vWindDirFromUpslope_isConstant : Bool := false
  vSurfaceFuelLoadTransferEq_isUserInput : Bool := false
  vSurfaceFuelLoadTransferFraction_isUserInput : Bool := false
  vSurfaceFireVectorBeta_value : ℚ := 0
  vSurfaceFireVectorDirFromUpslope_value : ℚ := 0
  vSurfaceFuelLoadTransferFraction_value : ℚ := 0
  vSurfaceFuelMoisDead1000_value : ℚ := 0
  vTreeCanopyCrownFraction_value : ℚ := 0
  vWindAdjFactor_value : ℚ := 0
  vWindDirFromUpslope_value : ℚ := 0
  vSurfaceFuelLoadTransferEq_item : ℤ := 0
  vWindAdjMethod_item : ℤ := 0
  labelWindSpeedAtMidflame : String := ""
  labelWindSpeedAt20Ft : String := ""
  labelWindSpeedAt10M : String := ""

/-- `EqCalc::reconfigureContainModule` (xeqcalcreconfig.cpp:53-138): if the
Contain master property is false, return immediately without modifying any
flag; otherwise set the module's function activations, input masking and
output visibility from the configuration. -/
def reconfigureContainModule (prop : PropertyDict) (s : EqStateR) : EqStateR :=
  if prop "containModuleActive" then
    let s := { s with
      fContainFF_active := prop "containConfResourcesMultiple"
      fContainFFSingle_active := prop "containConfResourcesSingle" }
    let s :=
      if prop "containConfResourcesSingle" then
        { s with vContainResourceName_isConstant := true }
      else
        { s with vContainResourceName_isConstant := false }
    let s :=
      if prop "containConfLimitDistOn" then
        { s with vContainLimitDist_isConstant := false
                 vContainLimitDist_isUserInput := true }
      else
        { s with vContainLimitDist_isConstant := true
                 vContainLimitDist_isUserInput := false }
    let s := { s with
      vContainLine_isUserOutput := prop "containCalcLine"
      vContainResourcesUsed_isUserOutput := prop "containCalcResourcesUsed"
      vContainSize_isUserOutput := prop "containCalcSize"
      vContainStatus_isUserOutput := prop "containCalcStatus"
      vContainTime_isUserOutput := prop "containCalcTime"
      vContainCost_isUserOutput := prop "containCalcCost"
      vContainDiagram_isUserOutput := prop "containCalcDiagram"
      vContainAttackPerimeter_isUserOutput := prop "containCalcAttackPerimeter"
      vContainAttackSize_isUserOutput := prop "containCalcAttackSize" }
    let s := { s with
      vContainResourceBaseCost_isConstant := false
      vContainResourceHourCost_isConstant := false }
    let s :=
      if ! s.vContainCost_isUserOutput then
        { s with vContainResourceBaseCost_isConstant := true
                 vContainResourceHourCost_isConstant := true }
      else s
    let s :=
      if prop "surfaceModuleActive" then
        { s with fContainFFReportSpread_active := true
                 fContainFFReportRatio_active := true }
      else s
    let s :=
      if prop "sizeModuleActive" then
        { s with fContainFFReportSpread_active := true
                 fContainFFReportRatio_active := true
                 fContainFFReportSize_active := true }
      else s
    { s with fContainFFReportSpread_active := true }
  else s

/-- The local `weighted` flag of `EqCalc::reconfigureSurfaceModule`: true
exactly when the two-fuel-model branch of option 1 is taken (neither the
fuel-models nor the fuel-parameters choice holds and one of the three
blending choices does). -/
def surfWeighted (prop : PropertyDict) : Bool :=
  !prop "surfaceConfFuelModels" && !prop "surfaceConfFuelParms" &&
    (prop "surfaceConfFuelAreaWeighted" || prop "surfaceConfFuelHarmonicMean"
      || prop "surfaceConfFuel2Dimensional")

/-- `reconfigureSurfaceModule`, unconditional prologue
(xeqcalcreconfig.cpp:748-785): activate the always-on function subset,
deactivate `fTreeCrownRatio`, and make the dead-herb load a constant. -/
def surfStageActivate (s : EqStateR) : EqStateR :=
  { s with
    fSurfaceFireCharacteristicsDiagram_active := true
    fSurfaceFireDistAtHead_active := true
    fSurfaceFireDistAtVector_active := true
    fSurfaceFireEccentricity_active := true
    fSurfaceFireEffWindAtVector_active := true
    fSurfaceFireFlameLengAtHead_active := true
    fSurfaceFireFlameLengAtVector_active := true
    fSurfaceFireMaxDirFromNorth_active := true
    fSurfaceFireHeatSource_active := true
    fSurfaceFireMaxDirDiagram_active := true
    fSurfaceFireMapDistAtHead_active := true
    fSurfaceFireMapDistAtVector_active := true
    fSurfaceFireSpreadAtBack_active := true
    fSurfaceFireSpreadAtHead_active := true
    fSurfaceFireVectorBeta_active := true
    fSurfaceFireSpreadAtBeta_active := true
    fSurfaceFireHeatPerUnitArea_active := true
    fSurfaceFireLengthToWidth_active := true
    fSurfaceFireLineIntAtHead_active := true
    fSurfaceFireLineIntAtVector_active := true
    fSurfaceFireNoWindRate_active := true
    fSurfaceFirePropagatingFlux_active := true
    fSurfaceFireReactionInt_active := true
    fSurfaceFireResidenceTime_active := true
    fSurfaceFuelBedIntermediates_active := true
    fSurfaceFuelBedHeatSink_active := true
    fSurfaceFuelMoisTimeLag_active := true
    fTreeCrownRatio_active := false
    vSurfaceFuelLoadDeadHerb_isConstant := true }

/-- `reconfigureSurfaceModule`, option 1 (fuel entry,
xeqcalcreconfig.cpp:787-925): first-true-wins over fuel models, fuel
parameters, the three two-fuel-model blending choices,
Palmetto-Gallberry, and Western Aspen. -/
def surfStageFuel (prop : PropertyDict) (s : EqStateR) : EqStateR :=
  if prop "surfaceConfFuelModels" then
    { s with fSurfaceFuelBedParms_active := true
             fSurfaceFuelBedModel_active := true }
  else if prop "surfaceConfFuelParms" then
    { s with fSurfaceFuelBedParms_active := true }
  else if prop "surfaceConfFuelAreaWeighted" || prop "surfaceConfFuelHarmonicMean"
      || prop "surfaceConfFuel2Dimensional" then
    { s with
      fSurfaceFuelBedWeighted_active := true
      vSurfaceFuelLoadTransferEq_isUserInput := false
      vSurfaceFuelLoadTransferEq_isConstant := true
      fSurfaceFuelBedModel_active := false
      fSurfaceFuelBedParms_active := false
      fSurfaceFuelLoadTransferFraction_active := false
      fSurfaceFuelBedIntermediates_active := false
      fSurfaceFireResidenceTime_active := false
      fSurfaceFuelMoisLifeClass_active := false
      fSurfaceFuelMoisScenarioModel_active := false
      fSurfaceFuelMoisTimeLag_active := false
      fSurfaceFuelBedHeatSink_active := false
      fSurfaceFirePropagatingFlux_active := false
      fSurfaceFireReactionInt_active := false
      fSurfaceFireNoWindRate_active := false
      fWindAdjFactor_active := false
      fWindSpeedAt20Ft_active := false
      fWindSpeedAtMidflame_active := false
      fSurfaceFireSpreadAtHead_active := false
      fSurfaceFireLineIntAtHead_active := false
      fSurfaceFireFlameLengAtHead_active := false
      fSurfaceFireLengthToWidth_active := false
      fSurfaceFireEccentricity_active := false
      fSurfaceFireVectorBeta_active := false
      fSurfaceFireSpreadAtBeta_active := false
      fSurfaceFireLineIntAtVector_active := false
      fSurfaceFireFlameLengAtVector_active := false
      fSurfaceFireEffWindAtVector_active := false
      fSurfaceFireHeatPerUnitArea_active := false }
  else if prop "surfaceConfFuelPalmettoGallberry" then
    { s with
      fSurfaceFuelPalmettoModel_active := true
      fSurfaceFuelPalmettoParms_active := true
      vSurfaceFuelPalmettoLoadDead1_isUserOutput :=
        prop "surfaceCalcPalmettoLoadDead1"
      vSurfaceFuelPalmettoLoadDead10_isUserOutput :=
        prop "surfaceCalcPalmettoLoadDead10"
      vSurfaceFuelPalmettoLoadDeadFoliage_isUserOutput :=
        prop "surfaceCalcPalmettoLoadDeadFoliage"
      vSurfaceFuelPalmettoLoadLive1_isUserOutput :=
        prop "surfaceCalcPalmettoLoadLive1"
      vSurfaceFuelPalmettoLoadLive10_isUserOutput :=
        prop "surfaceCalcPalmettoLoadLive10"
      vSurfaceFuelPalmettoLoadLiveFoliage_isUserOutput :=
        prop "surfaceCalcPalmettoLoadLiveFoliage"
      vSurfaceFuelPalmettoLoadLitter_isUserOutput :=
        prop "surfaceCalcPalmettoLoadLitter"
      vSurfaceFuelBedDepth_isUserOutput :=
        prop "surfaceCalcPalmettoBedDepth" }
  else if prop "surfaceConfFuelAspen" then
    { s with
      fSurfaceFuelAspenModel_active := true
      fSurfaceFuelAspenParms_active := true
      fTreeMortalityRateAspenAtVector_active := true
      vSurfaceFuelAspenLoadDead1_isUserOutput := prop "surfaceCalcAspenLoadDead1"
      vSurfaceFuelAspenLoadDead10_isUserOutput := false
      vSurfaceFuelAspenLoadLiveHerb_isUserOutput :=
        prop "surfaceCalcAspenLoadLiveHerb"
      vSurfaceFuelAspenLoadLiveWoody_isUserOutput :=
        prop "surfaceCalcAspenLoadLiveWoody"
      vSurfaceFuelAspenSavrDead1_isUserOutput := prop "surfaceCalcAspenSavrDead1"
      vSurfaceFuelAspenSavrDead10_isUserOutput := false
      vSurfaceFuelAspenSavrLiveHerb_isUserOutput := false
      vSurfaceFuelAspenSavrLiveWoody_isUserOutput :=
        prop "surfaceCalcAspenSavrLiveWoody"
      vSurfaceFuelBedDepth_isUserOutput := false
      vTreeMortalityRateAspenAtVector_isUserOutput :=
        prop "surfaceCalcAspenMortality" }
  else s

/-- `reconfigureSurfaceModule`, option 2 (dynamic curing load transfer,
xeqcalcreconfig.cpp:927-955): calculated or input transfer, then the
Palmetto-Gallberry / Aspen override that pins the transfer to 0. -/
def surfStageLoadTransfer (prop : PropertyDict) (s : EqStateR) : EqStateR :=
  let s :=
    if prop "surfaceConfLoadTransferCalc" then
      { s with vSurfaceFuelLoadTransferFraction_isUserInput := false
               fSurfaceFuelLoadTransferFraction_active := true }
    else if prop "surfaceConfLoadTransferInput" then
      { s with vSurfaceFuelLoadTransferFraction_isUserInput := true
               fSurfaceFuelLoadTransferFraction_active := false }
    else s
  if prop "surfaceConfFuelPalmettoGallberry" || prop "surfaceConfFuelAspen" then
    { s with
      vSurfaceFuelLoadTransferEq_isConstant := true
      vSurfaceFuelLoadTransferEq_item := 0
      vSurfaceFuelLoadTransferFraction_isUserInput := false
      fSurfaceFuelLoadTransferFraction_active := true
      vSurfaceFuelLoadTransferFraction_isConstant := true
      vSurfaceFuelLoadTransferFraction_value := 0 }
  else s

/-- `reconfigureSurfaceModule`, option 3 (moisture entry,
xeqcalcreconfig.cpp:957-984): time-lag classes need no change; life
category or moisture scenario activate their derivation node. -/
def surfStageMoisture (prop : PropertyDict) (s : EqStateR) : EqStateR :=
  if prop "surfaceConfMoisTimeLag" then s
  else if prop "surfaceConfMoisLifeCat" then
    { s with fSurfaceFuelMoisLifeClass_active := true }
  else if prop "surfaceConfMoisScenario" then
    { s with fSurfaceFuelMoisScenarioModel_active := true }
  else s

/-- `reconfigureSurfaceModule`, option 4 (wind speed entry,
xeqcalcreconfig.cpp:986-1103): midflame / 20-ft / 10-m wind with input or
calculated wind-adjustment factor. -/
def surfStageWind (prop : PropertyDict) (s : EqStateR) : EqStateR :=
  if prop "surfaceConfWindSpeedAtMidflame" then
    { s with
      vTreeCanopyCrownFraction_isConstant := true
      vTreeCanopyCrownFraction_value := 0
      vWindAdjFactor_isConstant := true
      vWindAdjFactor_value := 1
      vWindAdjMethod_isConstant := true
      vWindAdjMethod_item := 2 }
  else if prop "surfaceConfWindSpeedAt20Ft" then
    { s with
      fWindSpeedAtMidflame_active := true
      fWindAdjFactor_active := false
      vWindSpeedAtMidflame_isUserOutput := prop "surfaceCalcWindSpeedAtMidflame"
      vTreeCanopyCrownFraction_isConstant := true
      vTreeCanopyCrownFraction_value := 0
      vWindAdjMethod_isConstant := true
      vWindAdjMethod_item := 2 }
  else if prop "surfaceConfWindSpeedAt20FtCalc" then
    let s := { s with
      fWindSpeedAtMidflame_active := true
      fWindAdjFactor_active := true
      vWindSpeedAtMidflame_isUserOutput := prop "surfaceCalcWindSpeedAtMidflame" }
    let s :=
      if surfWeighted prop then { s with vSurfaceFuelBedDepth_isConstant := true }
      else s
    let s :=
      if prop "crownModuleActive" then
        { s with fTreeCrownRatio_active := true
                 vTreeCrownRatio_isUserOutput := prop "surfaceCalcCrownRatio" }
      else s
    { s with
      vTreeCanopyCrownFraction_isConstant := false
      vTreeCanopyCrownFraction_value := 0
      vWindAdjMethod_isConstant := false
      vWindAdjMethod_item := 2 }
  else if prop "surfaceConfWindSpeedAt10M" then
    { s with
      fWindSpeedAt20Ft_active := true
      fWindSpeedAtMidflame_active := true
      fWindAdjFactor_active := false
      vWindSpeedAtMidflame_isUserOutput := prop "surfaceCalcWindSpeedAtMidflame"
      vTreeCanopyCrownFraction_isConstant := true
      vTreeCanopyCrownFraction_value := 0
      vWindAdjMethod_isConstant := true
      vWindAdjMethod_item := 2 }
  else if prop "surfaceConfWindSpeedAt10MCalc" then
    let s := { s with
      fWindSpeedAt20Ft_active := true
      fWindSpeedAtMidflame_active := true
      fWindAdjFactor_active := true
      vWindSpeedAtMidflame_isUserOutput := prop "surfaceCalcWindSpeedAtMidflame" }
    let s :=
      if surfWeighted prop then { s with vSurfaceFuelBedDepth_isConstant := true }
      else s
    let s :=
      if prop "crownModuleActive" then
        { s with fTreeCrownRatio_active := true
                 vTreeCrownRatio_isUserOutput := prop "surfaceCalcCrownRatio" }
      else s
    { s with
      vTreeCanopyCrownFraction_isConstant := false
      vTreeCanopyCrownFraction_value := 0
      vWindAdjMethod_isConstant := false
      vWindAdjMethod_item := 2 }
  else s

/-- `reconfigureSurfaceModule`, option 6 (spread direction,
xeqcalcreconfig.cpp:1113-1177): maximum-direction-only mode pins the
vector to 0 and routes outputs at the fire head; otherwise outputs are at
the requested vector. -/
def surfStageSpreadDir (prop : PropertyDict) (s : EqStateR) : EqStateR :=
  if prop "surfaceConfSpreadDirMax" then
    let s := { s with
      vSurfaceFireVectorDirFromUpslope_isConstant := true
      vSurfaceFireVectorDirFromUpslope_value := 0
      vSurfaceFireVectorBeta_isConstant := true
      vSurfaceFireVectorBeta_value := 0
      fSurfaceFireVectorBeta_active := false
      vSurfaceFireDistAtHead_isUserOutput := false
      vSurfaceFireDistAtVector_isUserOutput := prop "surfaceCalcFireDist"
      vSurfaceFireEffWindAtHead_isUserOutput := prop "surfaceCalcFireEffWind"
      vSurfaceFireFlameLengAtHead_isUserOutput := prop "surfaceCalcFireFlameLeng"
      vSurfaceFireLineIntAtHead_isUserOutput := prop "surfaceCalcFireLineInt"
      vSurfaceFireSpreadAtHead_isUserOutput := prop "surfaceCalcFireSpread" }
    if prop "mapCalcDist" then
      { s with fMapScale_active := true
               vSurfaceFireMapDistAtVector_isUserOutput := prop "surfaceCalcFireDist" }
    else s
  else
    let s := { s with vSurfaceFireVectorDirFromUpslope_isConstant := false }
    let s :=
      if prop "surfaceConfDegreesWrtNorth" then
        { s with fSurfaceFireVectorDirFromUpslope_active := true }
      else s
    let s := { s with
      vSurfaceFireDistAtVector_isUserOutput := prop "surfaceCalcFireDist"
      vSurfaceFireEffWindAtVector_isUserOutput := prop "surfaceCalcFireEffWind"
      vSurfaceFireFlameLengAtVector_isUserOutput := prop "surfaceCalcFireFlameLeng"
      vSurfaceFireLineIntAtVector_isUserOutput := prop "surfaceCalcFireLineInt"
      vSurfaceFireSpreadAtVector_isUserOutput := prop "surfaceCalcFireSpread" }
    if prop "mapCalcDist" then
      { s with fMapScale_active := true
               vSurfaceFireMapDistAtVector_isUserOutput := prop "surfaceCalcFireDist" }
    else s

/-- `reconfigureSurfaceModule`, option 7 (wind direction,
xeqcalcreconfig.cpp:1179-1217), including the preceding reset of the
wind-speed labels: input wind direction (deriving the vector from a
north-relative source when needed) or wind blowing upslope. -/
def surfStageWindDir (prop : PropertyDict) (s : EqStateR) : EqStateR :=
  let s := { s with
    labelWindSpeedAtMidflame := ""
    labelWindSpeedAt20Ft := ""
    labelWindSpeedAt10M := "" }
  let s := { s with vWindDirFromUpslope_isConstant := false }
  if prop "surfaceConfWindDirInput" then
    if prop "surfaceConfDegreesWrtNorth" then
      { s with fWindDirFromUpslope_active := true }
    else s
  else
    { s with
      vWindDirFromUpslope_isConstant := true
      vWindDirFromUpslope_value := 0
      labelWindSpeedAtMidflame := "Upslope"
      labelWindSpeedAt20Ft := "Upslope"
      labelWindSpeedAt10M := "Upslope" }

/-- `reconfigureSurfaceModule`, option 8 (direction reference,
xeqcalcreconfig.cpp:1219-1254): spread-direction output is reported
relative to upslope or to north, also shown when either diagram requests
it. -/
def surfStageDirections (prop : PropertyDict) (s : EqStateR) : EqStateR :=
  if prop "surfaceConfDegreesWrtUpslope" then
    { s with
      vSurfaceFireMaxDirFromUpslope_isUserOutput :=
        prop "surfaceCalcFireMaxDirFromUpslope"
          || prop "surfaceCalcFireMaxDirDiagram"
          || (prop "sizeModuleActive" && prop "sizeCalcFireShapeDiagram") }
  else
    { s with
      fSiteUpslopeDirFromNorth_active := true
      vSurfaceFireMaxDirFromNorth_isUserOutput :=
        prop "surfaceCalcFireMaxDirFromUpslope"
          || prop "surfaceCalcFireMaxDirDiagram"
          || (prop "sizeModuleActive" && prop "sizeCalcFireShapeDiagram") }

/-- `reconfigureSurfaceModule`, option 10 (slope steepness,
xeqcalcreconfig.cpp:1256-1315): slope entered on the worksheet (as percent
or degrees) or derived from map measurements. -/
def surfStageSlope (prop : PropertyDict) (s : EqStateR) : EqStateR :=
  if prop "surfaceConfSlopeInput" then
    if prop "surfaceConfSlopeFraction" then s
    else if prop "surfaceConfSlopeDegrees" then
      { s with fSiteSlopeFraction_active := true }
    else s
  else
    let s := { s with
      fMapSlope_active := true
      fMapScale_active := true
      fSiteSlopeFraction_active := true
      vSiteSlopeReach_isUserOutput := prop "surfaceCalcSlopeReach"
      vSiteSlopeRise_isUserOutput := prop "surfaceCalcSlopeRise" }
    if prop "surfaceCalcSlopeSteepness" then
      { s with
        vSiteSlopeFraction_isUserOutput := prop "surfaceConfSlopeFraction"
        vSiteSlopeDegrees_isUserOutput := prop "surfaceConfSlopeDegrees" }
    else s

/-- `reconfigureSurfaceModule`, final output selections
(xeqcalcreconfig.cpp:1317-1392): unconditional "Calc"-driven outputs, then
the per-model intermediate outputs forced off under any two-fuel-model
blending choice, then the 1000-hr moisture constant. -/
def surfStageOutputs (prop : PropertyDict) (s : EqStateR) : EqStateR :=
  let s := { s with
    vSurfaceFireHeatPerUnitArea_isUserOutput :=
      prop "surfaceCalcFireHeatPerUnitArea"
    vSurfaceFireReactionInt_isUserOutput := prop "surfaceCalcFireReactionInt"
    vSurfaceFireWindSpeedFlag_isUserOutput := prop "surfaceCalcFireWindSpeedFlag"
    vSurfaceFireWindSpeedLimit_isUserOutput :=
      prop "surfaceCalcFireWindSpeedLimit"
    vTreeCanopyCrownFraction_isUserOutput := prop "surfaceCalcCrownFillPortion"
    vWindAdjFactor_isUserOutput := prop "surfaceCalcWindAdjFactor"
    vWindAdjMethod_isUserOutput := prop "surfaceCalcWindAdjMethod" }
  let twofuels := prop "surfaceConfFuelAreaWeighted"
    || prop "surfaceConfFuelHarmonicMean" || prop "surfaceConfFuel2Dimensional"
  { s with
    vSurfaceFireHeatSource_isUserOutput :=
      if twofuels then false else prop "surfaceCalcFireHeatSource"
    vSurfaceFireReactionIntDead_isUserOutput :=
      if twofuels then false else prop "surfaceCalcFireReactionIntDead"
    vSurfaceFireReactionIntLive_isUserOutput :=
      if twofuels then false else prop "surfaceCalcFireReactionIntLive"
    vSurfaceFireMaxDirDiagram_isUserOutput :=
      if twofuels then false else prop "surfaceCalcFireMaxDirDiagram"
    vSurfaceFireCharacteristicsDiagram_isUserOutput :=
      if twofuels then false else prop "surfaceCalcFireCharacteristicsDiagram"
    vSurfaceFuelLoadTransferFraction_isUserOutput :=
      if twofuels then false else prop "surfaceCalcFuelLoadTransferFraction"
    vSurfaceFuelLoadDead_isUserOutput :=
      if twofuels then false else prop "surfaceCalcFuelLoadDead"
    vSurfaceFuelLoadDeadHerb_isUserOutput :=
      if twofuels then false else prop "surfaceCalcFuelLoadDeadHerb"
    vSurfaceFuelLoadLive_isUserOutput :=
      if twofuels then false else prop "surfaceCalcFuelLoadLive"
    vSurfaceFuelLoadUndeadHerb_isUserOutput :=
      if twofuels then false else prop "surfaceCalcFuelLoadUndeadHerb"
    vSurfaceFuelBedSigma_isUserOutput :=
      if twofuels then false else prop "surfaceCalcFuelBedSigma"
    vSurfaceFuelBedPackingRatio_isUserOutput :=
      if twofuels then false else prop "surfaceCalcFuelBedPackingRatio"
    vSurfaceFuelBedBulkDensity_isUserOutput :=
      if twofuels then false else prop "surfaceCalcFuelBedBulkDensity"
    vSurfaceFuelBedBetaRatio_isUserOutput :=
      if twofuels then false else prop "surfaceCalcFuelBedBetaRatio"
    vSurfaceFuelBedDeadFraction_isUserOutput :=
      if twofuels then false else prop "surfaceCalcFuelBedDeadFraction"
    vSurfaceFuelBedLiveFraction_isUserOutput :=
      if twofuels then false else prop "surfaceCalcFuelBedLiveFraction"
    vSurfaceFuelBedHeatSink_isUserOutput :=
      if twofuels then false else prop "surfaceCalcFuelBedHeatSink"
    vSurfaceFuelBedMoisDead_isUserOutput :=
      if twofuels then false else prop "surfaceCalcFuelBedMoisDead"
    vSurfaceFuelBedMoisLive_isUserOutput :=
      if twofuels then false else prop "surfaceCalcFuelBedMoisLive"
    vSurfaceFuelBedMextLive_isUserOutput :=
      if twofuels then false else prop "surfaceCalcFuelBedMextLive"
    vSurfaceFireResidenceTime_isUserOutput :=
      if twofuels then false else prop "surfaceCalcFireResidenceTime"
    vSurfaceFireWindFactor_isUserOutput :=
      if twofuels then false else prop "surfaceCalcFireWindFactor"
    vSurfaceFireSlopeFactor_isUserOutput :=
      if twofuels then false else prop "surfaceCalcFireSlopeFactor"
    vSurfaceFuelMoisDead1000_value := 1/5
    vSurfaceFuelMoisDead1000_isConstant := true }

/-- `EqCalc::reconfigureSurfaceModule` (xeqcalcreconfig.cpp:739-1394): if
the Surface master property is false, return immediately without modifying
any flag; otherwise run the option stages in program order. -/
def reconfigureSurfaceModule (prop : PropertyDict) (s : EqStateR) : EqStateR :=
  if prop "surfaceModuleActive" then
    surfStageOutputs prop
      (surfStageSlope prop
        (surfStageDirections prop
          (surfStageWindDir prop
            (surfStageSpreadDir prop
              (surfStageWind prop
                (surfStageMoisture prop
                  (surfStageLoadTransfer prop
                    (surfStageFuel prop (surfStageActivate s)))))))))
  else s

/-- All Contain-module functions inactive and all Contain-module output
variables not marked user-output. -/
def containModuleClear (s : EqStateR) : Prop :=
  s.fContainFF_active = false ∧
  s.fContainFFSingle_active = false ∧
  s.fContainFFReportSpread_active = false ∧
  s.fContainFFReportRatio_active = false ∧
  s.fContainFFReportSize_active = false ∧
  s.vContainLine_isUserOutput = false ∧
  s.vContainResourcesUsed_isUserOutput = false ∧
  s.vContainSize_isUserOutput = false ∧
  s.vContainStatus_isUserOutput = false ∧
  s.vContainTime_isUserOutput = false ∧
  s.vContainCost_isUserOutput = false ∧
  s.vContainDiagram_isUserOutput = false ∧
  s.vContainAttackPerimeter_isUserOutput = false ∧
  s.vContainAttackSize_isUserOutput = false

/-- All functions managed by the Surface-module procedure inactive and all
output variables it manages not marked user-output. -/
def surfaceModuleClear (s : EqStateR) : Prop :=
  s.fMapScale_active = false ∧
  s.fMapSlope_active = false ∧
  s.fSiteSlopeFraction_active = false ∧
  s.fSiteUpslopeDirFromNorth_active = false ∧
  s.fSurfaceFireCharacteristicsDiagram_active = false ∧
  s.fSurfaceFireDistAtHead_active = false ∧
  s.fSurfaceFireDistAtVector_active = false ∧
  s.fSurfaceFireEccentricity_active = false ∧
  s.fSurfaceFireEffWindAtVector_active = false ∧
  s.fSurfaceFireFlameLengAtHead_active = false ∧
  s.fSurfaceFireFlameLengAtVector_active = false ∧
  s.fSurfaceFireHeatPerUnitArea_active = false ∧
  s.fSurfaceFireHeatSource_active = false ∧
  s.fSurfaceFireLengthToWidth_active = false ∧
  s.fSurfaceFireLineIntAtHead_active = false ∧
  s.fSurfaceFireLineIntAtVector_active = false ∧
  s.fSurfaceFireMapDistAtHead_active = false ∧
  s.fSurfaceFireMapDistAtVector_active = false ∧
  s.fSurfaceFireMaxDirDiagram_active = false ∧
  s.fSurfaceFireMaxDirFromNorth_active = false ∧
  s.fSurfaceFireNoWindRate_active = false ∧
  s.fSurfaceFirePropagatingFlux_active = false ∧
  s.fSurfaceFireReactionInt_active = false ∧
  s.fSurfaceFireResidenceTime_active = false ∧
  s.fSurfaceFireSpreadAtBack_active = false ∧
  s.fSurfaceFireSpreadAtBeta_active = false ∧
  s.fSurfaceFireSpreadAtHead_active = false ∧
  s.fSurfaceFireVectorBeta_active = false ∧
  s.fSurfaceFireVectorDirFromUpslope_active = false ∧
  s.fSurfaceFuelAspenModel_active = false ∧
  s.fSurfaceFuelAspenParms_active = false ∧
  s.fSurfaceFuelBedHeatSink_active = false ∧
  s.fSurfaceFuelBedIntermediates_active = false ∧
  s.fSurfaceFuelBedModel_active = false ∧
  s.fSurfaceFuelBedParms_active = false ∧
  s.fSurfaceFuelBedWeighted_active = false ∧
  s.fSurfaceFuelLoadTransferFraction_active = false ∧
  s.fSurfaceFuelMoisLifeClass_active = false ∧
  s.fSurfaceFuelMoisScenarioModel_active = false ∧
  s.fSurfaceFuelMoisTimeLag_active = false ∧
  s.fSurfaceFuelPalmettoModel_active = false ∧
  s.fSurfaceFuelPalmettoParms_active = false ∧
  s.fTreeCrownRatio_active = false ∧
  s.fTreeMortalityRateAspenAtVector_active = false ∧
  s.fWindAdjFactor_active = false ∧
  s.fWindDirFromUpslope_active = false ∧
  s.fWindSpeedAt20Ft_active = false ∧
  s.fWindSpeedAtMidflame_active = false ∧
  s.vSiteSlopeDegrees_isUserOutput = false ∧
  s.vSiteSlopeFraction_isUserOutput = false ∧
  s.vSiteSlopeReach_isUserOutput = false ∧
  s.vSiteSlopeRise_isUserOutput = false ∧
  s.vSurfaceFireCharacteristicsDiagram_isUserOutput = false ∧
  s.vSurfaceFireDistAtHead_isUserOutput = false ∧
  s.vSurfaceFireDistAtVector_isUserOutput = false ∧
  s.vSurfaceFireEffWindAtHead_isUserOutput = false ∧
  s.vSurfaceFireEffWindAtVector_isUserOutput = false ∧
  s.vSurfaceFireFlameLengAtHead_isUserOutput = false ∧
  s.vSurfaceFireFlameLengAtVector_isUserOutput = false ∧
  s.vSurfaceFireHeatPerUnitArea_isUserOutput = false ∧
  s.vSurfaceFireHeatSource_isUserOutput = false ∧
  s.vSurfaceFireLineIntAtHead_isUserOutput = false ∧
  s.vSurfaceFireLineIntAtVector_isUserOutput = false ∧
  s.vSurfaceFireMapDistAtVector_isUserOutput = false ∧
  s.vSurfaceFireMaxDirDiagram_isUserOutput = false ∧
  s.vSurfaceFireMaxDirFromNorth_isUserOutput = false ∧
  s.vSurfaceFireMaxDirFromUpslope_isUserOutput = false ∧
  s.vSurfaceFireReactionInt_isUserOutput = false ∧
  s.vSurfaceFireReactionIntDead_isUserOutput = false ∧
  s.vSurfaceFireReactionIntLive_isUserOutput = false ∧
  s.vSurfaceFireResidenceTime_isUserOutput = false ∧
  s.vSurfaceFireSlopeFactor_isUserOutput = false ∧
  s.vSurfaceFireSpreadAtHead_isUserOutput = false ∧
  s.vSurfaceFireSpreadAtVector_isUserOutput = false ∧
  s.vSurfaceFireWindFactor_isUserOutput = false ∧
  s.vSurfaceFireWindSpeedFlag_isUserOutput = false ∧
  s.vSurfaceFireWindSpeedLimit_isUserOutput = false ∧
  s.vSurfaceFuelAspenLoadDead1_isUserOutput = false ∧
  s.vSurfaceFuelAspenLoadDead10_isUserOutput = false ∧
  s.vSurfaceFuelAspenLoadLiveHerb_isUserOutput = false ∧
  s.vSurfaceFuelAspenLoadLiveWoody_isUserOutput = false ∧
  s.vSurfaceFuelAspenSavrDead1_isUserOutput = false ∧
  s.vSurfaceFuelAspenSavrDead10_isUserOutput = false ∧
  s.vSurfaceFuelAspenSavrLiveHerb_isUserOutput = false ∧
  s.vSurfaceFuelAspenSavrLiveWoody_isUserOutput = false ∧
  s.vSurfaceFuelBedBetaRatio_isUserOutput = false ∧
  s.vSurfaceFuelBedBulkDensity_isUserOutput = false ∧
  s.vSurfaceFuelBedDeadFraction_isUserOutput = false ∧
  s.vSurfaceFuelBedDepth_isUserOutput = false ∧
  s.vSurfaceFuelBedHeatSink_isUserOutput = false ∧
  s.vSurfaceFuelBedLiveFraction_isUserOutput = false ∧
  s.vSurfaceFuelBedMextLive_isUserOutput = false ∧
  s.vSurfaceFuelBedMoisDead_isUserOutput = false ∧
  s.vSurfaceFuelBedMoisLive_isUserOutput = false ∧
  s.vSurfaceFuelBedPackingRatio_isUserOutput = false ∧
  s.vSurfaceFuelBedSigma_isUserOutput = false ∧
  s.vSurfaceFuelLoadDead_isUserOutput = false ∧
  s.vSurfaceFuelLoadDeadHerb_isUserOutput = false ∧
  s.vSurfaceFuelLoadLive_isUserOutput = false ∧
  s.vSurfaceFuelLoadTransferFraction_isUserOutput = false ∧
  s.vSurfaceFuelLoadUndeadHerb_isUserOutput = false ∧
  s.vSurfaceFuelPalmettoLoadDead1_isUserOutput = false ∧
  s.vSurfaceFuelPalmettoLoadDead10_isUserOutput = false ∧
  s.vSurfaceFuelPalmettoLoadDeadFoliage_isUserOutput = false ∧
  s.vSurfaceFuelPalmettoLoadLitter_isUserOutput = false ∧
  s.vSurfaceFuelPalmettoLoadLive1_isUserOutput = false ∧
  s.vSurfaceFuelPalmettoLoadLive10_isUserOutput = false ∧
  s.vSurfaceFuelPalmettoLoadLiveFoliage_isUserOutput = false ∧
  s.vTreeCanopyCrownFraction_isUserOutput = false ∧
  s.vTreeCrownRatio_isUserOutput = false ∧
  s.vTreeMortalityRateAspenAtVector_isUserOutput = false ∧
  s.vWindAdjFactor_isUserOutput = false ∧
  s.vWindAdjMethod_isUserOutput = false ∧
  s.vWindSpeedAtMidflame_isUserOutput = false

/-- The cleared initial graph state: every flag at its default. -/
def s0 : EqStateR := {}

/-- A configuration with every boolean property false. -/
def propAllFalse : PropertyDict := fun _ => false

/-- A configuration with the Surface module active and the harmonic-mean
two-fuel-model blending choice selected. -/
def propTwoFuels : PropertyDict := fun n =>
  n == "surfaceModuleActive" || n == "surfaceConfFuelHarmonicMean"

/-- A configuration with the Surface module active, no blending choice
selected, and the heat-source "Calc" flag requested. -/
def propOneFuel : PropertyDict := fun n =>
  n == "surfaceModuleActive" || n == "surfaceCalcFireHeatSource"

/-! ## Theorems -/

/-- The C++ conditional `(a > b) ? a : b` is the maximum. -/
theorem ite_gt_eq_max (a b : ℚ) : (if a > b then a else b) = max a b := by
  rcases le_or_lt a b with h | h
  · rw [if_neg (not_lt.mpr h), max_eq_right h]
  · rw [if_pos h, max_eq_left h.le]

/-- The C++ conditional `(a < b) ? a : b` is the minimum. -/
theorem ite_lt_eq_min (a b : ℚ) : (if a < b then a else b) = min a b := by
  rcases le_or_lt b a with h | h
  · rw [if_neg (not_lt.mpr h), min_eq_right h]
  · rw [if_pos h, min_eq_left h.le]

/-- C8: for a wind source direction of 0 degrees from north and an upslope
direction of 180 degrees, `WindDirFromUpslope` stores exactly 0; in general
it subtracts 180 from the source direction (adding 360 if negative),
subtracts the upslope direction (adding 360 if negative), and snaps the
result to 0 whenever its absolute value is below the 0.5-degree
tolerance. -/
theorem C8_windDirFromUpslope_wrap :
    windDirFromUpslope 180 0 = 0 ∧
    ∀ sd wd : ℚ, windDirFromUpslope sd wd =
      (let v := wd - 180
       let v2 := if v < 0 then v + 360 else v
       let d := v2 - sd
       let d2 := if d < 0 then d + 360 else d
       if |d2| < 1/2 then 0 else d2) := by
  constructor
  · norm_num [windDirFromUpslope, windDirRaw]
  · intro sd wd
    rfl

/-- C10: for wind-from-north and upslope directions in `[0, 360)`,
`WindDirFromUpslope` stores a result in `[0, 360)`, and the 0.5-degree
snap-to-zero applies only to raw results below 0.5 degrees: any raw result
of at least 0.5 (for example 359.8) is stored unchanged. -/
theorem C10_windDirFromUpslope_range (sd wd : ℚ)
    (hs0 : 0 ≤ sd) (hs1 : sd < 360) (hw0 : 0 ≤ wd) (hw1 : wd < 360) :
    (0 ≤ windDirFromUpslope sd wd ∧ windDirFromUpslope sd wd < 360) ∧
    (1/2 ≤ windDirRaw sd wd → windDirFromUpslope sd wd = windDirRaw sd wd) := by
  have h0 : 0 ≤ windDirRaw sd wd ∧ windDirRaw sd wd < 360 := by
    simp only [windDirRaw]
    split_ifs with h1 h2 h2 <;> constructor <;> linarith
  constructor
  · simp only [windDirFromUpslope]
    split_ifs with h
    · exact ⟨le_refl 0, by norm_num⟩
    · exact h0
  · intro hr
    simp only [windDirFromUpslope]
    rw [if_neg]
    rw [abs_of_nonneg h0.1]
    linarith

/-- Witness for C10 at upslope 180.2°, wind source 0°: the raw result 359.8
is within half a degree below 360 and is stored unchanged. -/
theorem C10_witness :
    windDirFromUpslope (901/5) 0 = 1799/5 ∧
    0 ≤ windDirFromUpslope (901/5) 0 ∧ windDirFromUpslope (901/5) 0 < 360 := by
  have h := C10_windDirFromUpslope_range (901/5) 0 (by norm_num) (by norm_num)
    (by norm_num) (by norm_num)
  have hraw : windDirRaw (901/5) 0 = 1799/5 := by
    norm_num [windDirRaw]
  refine ⟨?_, h.1.1, h.1.2⟩
  rw [h.2 (by rw [hraw]; norm_num), hraw]

/-- C4: for both `ContainFF` and `ContainFFSingle`, a simulator terminal
status of Contained (index 3) yields stored outcome 0 (Contained) with the
simulator's reported final size; every other terminal status forces the
stored final size to -1 and yields outcome 1 (Withdrawn) when the fireline
length built is positive and 2 (Escaped) otherwise. -/
theorem C4_contain_statusSize (sim : ContainSimResult) :
    (sim.status = 3 →
      containFF_statusSize sim = (0, sim.finalSize) ∧
      containFFSingle_statusSize sim = (0, sim.finalSize)) ∧
    (sim.status ≠ 3 →
      containFF_statusSize sim = ((if sim.finalLine > 0 then 1 else 2), -1) ∧
      containFFSingle_statusSize sim = ((if sim.finalLine > 0 then 1 else 2), -1)) := by
  have hx : ∀ st : Fin 8, st ≠ 3 →
      containStatusXwalk st ≠ 0 ∧ containStatusXwalk st ≠ 3 := by decide
  obtain ⟨st, size, line⟩ := sim
  constructor
  · intro h
    subst h
    exact ⟨rfl, rfl⟩
  · intro h
    have hcond := hx st h
    constructor
    · simp only [containFF_statusSize]
      rw [if_pos hcond, if_pos hcond]
    · simp only [containFFSingle_statusSize]
      rw [if_pos hcond, if_pos hcond]

/-- Witness for C4: a Contained run keeps its reported size 42; an Overrun
run with fireline built is stored as Withdrawn with size -1. -/
theorem C4_witness :
    containFF_statusSize ⟨3, 42, 7⟩ = (0, 42) ∧
    containFFSingle_statusSize ⟨3, 42, 7⟩ = (0, 42) ∧
    containFF_statusSize ⟨4, 42, 7⟩ = (1, -1) ∧
    containFFSingle_statusSize ⟨4, 42, 7⟩ = (1, -1) := by
  have h3 := (C4_contain_statusSize ⟨3, 42, 7⟩).1 rfl
  have h4 := (C4_contain_statusSize ⟨4, 42, 7⟩).2 (by decide)
  norm_num at h4
  exact ⟨h3.1, h3.2, h4.1, h4.2⟩

/-- C7: `FuelBedIntermediates` applies the herbaceous load transfer exactly
when the transfer-equation selector is non-zero and the transfer fraction
exceeds 1e-5 (otherwise the dead-herb and live-herb slots and the load
totals are the untransferred values), and the stored dead-load fraction is
0 whenever the total load is below the `smidgen` threshold, with the
quotient `deadLoad / totalLoad` taken only when the total reaches the
threshold. -/
theorem C7_fuelBedIntermediates_guards (smidgen : ℚ) (x : FBIInputs) :
    ((x.transferEq ≠ 0 ∧ x.transferFraction > 1/100000) →
      (fuelBedIntermediates smidgen x).loadDeadHerb
          = x.transferFraction * x.load 3 ∧
      (fuelBedIntermediates smidgen x).loadUndeadHerb
          = x.load 3 - x.transferFraction * x.load 3 ∧
      (fuelBedIntermediates smidgen x).loadDead
          = fbiDeadLoadRaw x + x.transferFraction * x.load 3 ∧
      (fuelBedIntermediates smidgen x).loadLive
          = fbiLiveLoadRaw x - x.transferFraction * x.load 3) ∧
    (¬(x.transferEq ≠ 0 ∧ x.transferFraction > 1/100000) →
      (fuelBedIntermediates smidgen x).loadDeadHerb = x.load 5 ∧
      (fuelBedIntermediates smidgen x).loadUndeadHerb = x.load 3 ∧
      (fuelBedIntermediates smidgen x).loadDead = fbiDeadLoadRaw x ∧
      (fuelBedIntermediates smidgen x).loadLive = fbiLiveLoadRaw x) ∧
    ((fuelBedIntermediates smidgen x).loadDead
        + (fuelBedIntermediates smidgen x).loadLive < smidgen →
      (fuelBedIntermediates smidgen x).deadFraction = 0) ∧
    (smidgen ≤ (fuelBedIntermediates smidgen x).loadDead
        + (fuelBedIntermediates smidgen x).loadLive →
      (fuelBedIntermediates smidgen x).deadFraction
        = (fuelBedIntermediates smidgen x).loadDead
          / ((fuelBedIntermediates smidgen x).loadDead
             + (fuelBedIntermediates smidgen x).loadLive)) := by
  refine ⟨?_, ?_, ?_, ?_⟩
  · intro h
    simp only [fuelBedIntermediates]
    rw [if_pos h.1]
    simp only [if_pos h.2]
    refine ⟨?_, ?_, ?_, ?_⟩ <;> first | rfl | trivial
  · intro h
    by_cases he : x.transferEq = 0
    · have h0 : ¬ ((if x.transferEq ≠ 0 then x.transferFraction else (0:ℚ))
          > 1/100000) := by
        rw [if_neg (not_not_intro he)]
        norm_num
      simp only [fuelBedIntermediates]
      simp only [if_neg h0]
      refine ⟨?_, ?_, ?_, ?_⟩ <;> first | rfl | trivial
    · have hf : ¬ (x.transferFraction > 1/100000) := fun hc => h ⟨he, hc⟩
      simp only [fuelBedIntermediates]
      rw [if_pos he]
      simp only [if_neg hf]
      refine ⟨?_, ?_, ?_, ?_⟩ <;> first | rfl | trivial
  · intro h
    simp only [fuelBedIntermediates] at h ⊢
    rw [if_pos h]
  · intro h
    simp only [fuelBedIntermediates] at h ⊢
    rw [if_neg (not_lt.mpr h)]

/-- Witness for C7: with transfer equation 1 and fraction 1/2, half of the
live-herb load 4 moves to the dead-herb slot; with all loads at their
concrete values the dead fraction is the dead share of the total. -/
theorem C7_witness :
    ((1:ℤ) ≠ 0 ∧ (1/2:ℚ) > 1/100000) ∧
    (fuelBedIntermediates (1/10000000) xfbi).loadDeadHerb = 2 ∧
    (fuelBedIntermediates (1/10000000) xfbi).loadUndeadHerb = 2 := by
  have h := (C7_fuelBedIntermediates_guards (1/10000000) xfbi).1
    ⟨by norm_num [xfbi], by norm_num [xfbi]⟩
  refine ⟨⟨by norm_num, by norm_num⟩, ?_, ?_⟩
  · rw [h.1]; norm_num [xfbi]
  · rw [h.2.1]; norm_num [xfbi]

/-- C9: after `FuelBedIntermediates`, the stored dead-load and live-load
fractions sum exactly to 1, and the herbaceous load transfer preserves the
total fuel load: the stored dead and live totals sum to the sum of the
per-particle loads. -/
theorem C9_fuelBedIntermediates_conservation (smidgen : ℚ) (x : FBIInputs) :
    (fuelBedIntermediates smidgen x).deadFraction
      + (fuelBedIntermediates smidgen x).liveFraction = 1 ∧
    (fuelBedIntermediates smidgen x).loadDead
      + (fuelBedIntermediates smidgen x).loadLive = ∑ p : Fin 8, x.load p := by
  have hpart : fbiDeadLoadRaw x + fbiLiveLoadRaw x = ∑ p : Fin 8, x.load p := by
    unfold fbiDeadLoadRaw fbiLiveLoadRaw
    rw [← Finset.sum_add_distrib]
    refine Finset.sum_congr rfl fun p _ => ?_
    split_ifs <;> ring
  constructor
  · simp only [fuelBedIntermediates]
    ring
  · simp only [fuelBedIntermediates]
    split_ifs <;> linarith

/-- C1: when either coverage exceeds 0.999, every non-spread blended output
of `FuelBedWeighted` equals the corresponding value captured during the
dominant model's pass (model 0 when `cov0 > 0.999`, model 1 otherwise),
while the head and vector spread rates still come from the selected blend
formula. -/
theorem C1_dominance_copies_nonspread (f2d : Sampler2D) (cfg : BlendConfig)
    (m0 m1 : PassOutputs) (cov0 : ℚ)
    (h : cov0 > 999/1000 ∨ 1 - cov0 > 999/1000) :
    (fuelBedWeightedBlend f2d cfg m0 m1 cov0).rxi
        = (if cov0 > 999/1000 then m0 else m1).rxi ∧
    (fuelBedWeightedBlend f2d cfg m0 m1 cov0).mxd
        = (if cov0 > 999/1000 then m0 else m1).mxd ∧
    (fuelBedWeightedBlend f2d cfg m0 m1 cov0).waf
        = (if cov0 > 999/1000 then m0 else m1).waf ∧
    (fuelBedWeightedBlend f2d cfg m0 m1 cov0).wmf
        = (if cov0 > 999/1000 then m0 else m1).wmf ∧
    (fuelBedWeightedBlend f2d cfg m0 m1 cov0).ewsh
        = (if cov0 > 999/1000 then m0 else m1).ewsh ∧
    (fuelBedWeightedBlend f2d cfg m0 m1 cov0).ewsv
        = (if cov0 > 999/1000 then m0 else m1).ewsv ∧
    (fuelBedWeightedBlend f2d cfg m0 m1 cov0).wsl
        = (if cov0 > 999/1000 then m0 else m1).wsl ∧
    (fuelBedWeightedBlend f2d cfg m0 m1 cov0).wsf
        = (if cov0 > 999/1000 then m0 else m1).wsf ∧
    (fuelBedWeightedBlend f2d cfg m0 m1 cov0).flw
        = (if cov0 > 999/1000 then m0 else m1).flw ∧
    (fuelBedWeightedBlend f2d cfg m0 m1 cov0).hua
        = (if cov0 > 999/1000 then m0 else m1).hua ∧
    (fuelBedWeightedBlend f2d cfg m0 m1 cov0).flih
        = (if cov0 > 999/1000 then m0 else m1).flih ∧
    (fuelBedWeightedBlend f2d cfg m0 m1 cov0).fliv
        = (if cov0 > 999/1000 then m0 else m1).fliv ∧
    (fuelBedWeightedBlend f2d cfg m0 m1 cov0).flh
        = (if cov0 > 999/1000 then m0 else m1).flh ∧
    (fuelBedWeightedBlend f2d cfg m0 m1 cov0).flv
        = (if cov0 > 999/1000 then m0 else m1).flv ∧
    (fuelBedWeightedBlend f2d cfg m0 m1 cov0).bedDepth
        = (if cov0 > 999/1000 then m0 else m1).depth ∧
    (fuelBedWeightedBlend f2d cfg m0 m1 cov0).rosHead
        = (weightedSpreadPair f2d cfg m0 m1 cov0).1 ∧
    (fuelBedWeightedBlend f2d cfg m0 m1 cov0).rosVector
        = (weightedSpreadPair f2d cfg m0 m1 cov0).2 := by
  simp only [fuelBedWeightedBlend]
  rw [if_pos h]
  exact ⟨rfl, rfl, rfl, rfl, rfl, rfl, rfl, rfl, rfl, rfl, rfl, rfl, rfl, rfl,
    rfl, rfl, rfl⟩

/-- Witness for C1 at coverage `(1, 0)` with the area-weighted method:
model 0's captured values are copied and the head spread rate is the
area-weighted formula's value. -/
theorem C1_witness :
    (fuelBedWeightedBlend zeroSampler cfgAW passA passB 1).rxi = passA.rxi ∧
    (fuelBedWeightedBlend zeroSampler cfgAW passA passB 1).bedDepth = passA.depth ∧
    (fuelBedWeightedBlend zeroSampler cfgAW passA passB 1).rosHead
      = (weightedSpreadPair zeroSampler cfgAW passA passB 1).1 := by
  obtain ⟨h1, h2, h3, h4, h5, h6, h7, h8, h9, h10, h11, h12, h13, h14, h15,
    h16, h17⟩ :=
    C1_dominance_copies_nonspread zeroSampler cfgAW passA passB 1 (by norm_num)
  have hpos : (1:ℚ) > 999/1000 := by norm_num
  refine ⟨?_, ?_, h16⟩
  · rw [h1, if_pos hpos]
  · rw [h15, if_pos hpos]

/-- C2: when neither coverage exceeds 0.999 (`0.001 ≤ cov0 ≤ 0.999`), the
blend stage of `FuelBedWeighted` aggregates: reaction intensity, heat per
unit area, fireline intensities, flame lengths and fuel-bed depth by
maximum; wind-speed limit by minimum; the wind-limit flag by logical or;
and the direction of maximum spread, wind-adjustment factor, midflame wind,
effective winds and length-to-width ratio from the first model. -/
theorem C2_aggregation_rules (f2d : Sampler2D) (cfg : BlendConfig)
    (m0 m1 : PassOutputs) (cov0 : ℚ)
    (h1 : 1/1000 ≤ cov0) (h2 : cov0 ≤ 999/1000) :
    (fuelBedWeightedBlend f2d cfg m0 m1 cov0).rxi = max m0.rxi m1.rxi ∧
    (fuelBedWeightedBlend f2d cfg m0 m1 cov0).mxd = m0.mxd ∧
    (fuelBedWeightedBlend f2d cfg m0 m1 cov0).waf = m0.waf ∧
    (fuelBedWeightedBlend f2d cfg m0 m1 cov0).wmf = m0.wmf ∧
    (fuelBedWeightedBlend f2d cfg m0 m1 cov0).ewsh = m0.ewsh ∧
    (fuelBedWeightedBlend f2d cfg m0 m1 cov0).ewsv = m0.ewsv ∧
    (fuelBedWeightedBlend f2d cfg m0 m1 cov0).flw = m0.flw ∧
    (fuelBedWeightedBlend f2d cfg m0 m1 cov0).wsl = min m0.wsl m1.wsl ∧
    (fuelBedWeightedBlend f2d cfg m0 m1 cov0).wsf = (m0.wsf || m1.wsf) ∧
    (fuelBedWeightedBlend f2d cfg m0 m1 cov0).hua = max m0.hua m1.hua ∧
    (fuelBedWeightedBlend f2d cfg m0 m1 cov0).flih = max m0.flih m1.flih ∧
    (fuelBedWeightedBlend f2d cfg m0 m1 cov0).fliv = max m0.fliv m1.fliv ∧
    (fuelBedWeightedBlend f2d cfg m0 m1 cov0).flh = max m0.flh m1.flh ∧
    (fuelBedWeightedBlend f2d cfg m0 m1 cov0).flv = max m0.flv m1.flv ∧
    (fuelBedWeightedBlend f2d cfg m0 m1 cov0).bedDepth
      = max m0.depth m1.depth := by
  have hno : ¬ (cov0 > 999/1000 ∨ 1 - cov0 > 999/1000) := by
    push_neg
    constructor <;> linarith
  simp only [fuelBedWeightedBlend]
  rw [if_neg hno]
  refine ⟨?_, rfl, rfl, rfl, rfl, rfl, rfl, ?_, rfl, ?_, ?_, ?_, ?_, ?_, ?_⟩ <;>
    first
      | exact ite_gt_eq_max _ _
      | exact ite_lt_eq_min _ _

/-- Witness for C2 at coverage `(1/2, 1/2)`: the aggregation rules applied
to two concrete captured passes. -/
theorem C2_witness :
    (fuelBedWeightedBlend zeroSampler cfgAW passA passB (1/2)).rxi = 30 ∧
    (fuelBedWeightedBlend zeroSampler cfgAW passA passB (1/2)).wsl = 9 ∧
    (fuelBedWeightedBlend zeroSampler cfgAW passA passB (1/2)).wsf = true ∧
    (fuelBedWeightedBlend zeroSampler cfgAW passA passB (1/2)).mxd = 4 := by
  obtain ⟨h1, h2, h3, h4, h5, h6, h7, h8, h9, h10, h11, h12, h13, h14, h15⟩ :=
    C2_aggregation_rules zeroSampler cfgAW passA passB (1/2)
      (by norm_num) (by norm_num)
  refine ⟨?_, ?_, ?_, ?_⟩
  · rw [h1]; norm_num [passA, passB]
  · rw [h8]; norm_num [passA, passB]
  · rw [h9]; norm_num [passA, passB]
  · rw [h2]; norm_num [passA]

/-- C3: with the harmonic-mean method selected, the blended head spread
rate is `1 / (cov0/rosh0 + cov1/rosh1)` when both captured head rates
exceed 1e-6 and 0 otherwise; in particular, captured head rates `[0, 5]`
at coverages `[0.5, 0.5]` blend to 0. -/
theorem C3_harmonicMean_headRate (f2d : Sampler2D) (cfg : BlendConfig)
    (m0 m1 : PassOutputs) (cov0 : ℚ)
    (ha : cfg.areaWeighted = false) (hh : cfg.harmonicMean = true) :
    (fuelBedWeightedBlend f2d cfg m0 m1 cov0).rosHead =
      if m0.rosh > 1/1000000 ∧ m1.rosh > 1/1000000 then
        1 / (cov0 / m0.rosh + (1 - cov0) / m1.rosh)
      else 0 := by
  have hros : (fuelBedWeightedBlend f2d cfg m0 m1 cov0).rosHead
      = (weightedSpreadPair f2d cfg m0 m1 cov0).1 := by
    simp only [fuelBedWeightedBlend]
    split_ifs <;> rfl
  rw [hros]
  simp only [weightedSpreadPair, ha, hh, Bool.false_eq_true, if_false, if_true]
  split_ifs <;> rfl

/-- Witness for C3: captured head rates `[0, 5]` at coverages `[0.5, 0.5]`
give a blended head spread rate of 0 (the zero-guard triggers on model 0's
rate). -/
theorem C3_witness :
    cfgHM.areaWeighted = false ∧ cfgHM.harmonicMean = true ∧
    passA.rosh = 0 ∧ passB.rosh = 5 ∧
    (fuelBedWeightedBlend zeroSampler cfgHM passA passB (1/2)).rosHead = 0 := by
  have h := C3_harmonicMean_headRate zeroSampler cfgHM passA passB (1/2) rfl rfl
  refine ⟨rfl, rfl, rfl, rfl, ?_⟩
  rw [h, if_neg]
  intro hc
  have h0 : passA.rosh = 0 := rfl
  rw [h0] at hc
  have : ¬ ((0:ℚ) > 1/1000000) := by norm_num
  exact this hc.1

/-- C5: when a module's master boolean property is false its module
procedure returns immediately, leaving the state untouched; hence from the
initial graph state (every function inactive, no variable user-output) the
module's functions stay inactive and its variables stay non-output.  Shown
for the cited Contain and Surface module procedures. -/
theorem C5_inactive_module_preserved (prop : PropertyDict) (s : EqStateR) :
    (prop "containModuleActive" = false →
      reconfigureContainModule prop s = s ∧
      (containModuleClear s →
        containModuleClear (reconfigureContainModule prop s))) ∧
    (prop "surfaceModuleActive" = false →
      reconfigureSurfaceModule prop s = s ∧
      (surfaceModuleClear s →
        surfaceModuleClear (reconfigureSurfaceModule prop s))) := by
  constructor
  · intro h
    have hid : reconfigureContainModule prop s = s := by
      simp [reconfigureContainModule, h]
    exact ⟨hid, fun hc => by rw [hid]; exact hc⟩
  · intro h
    have hid : reconfigureSurfaceModule prop s = s := by
      simp [reconfigureSurfaceModule, h]
    exact ⟨hid, fun hc => by rw [hid]; exact hc⟩

/-- Witness for C5: with every property false, both procedures leave the
cleared initial state exactly as it was. -/
theorem C5_witness :
    reconfigureContainModule propAllFalse s0 = s0 ∧
    reconfigureSurfaceModule propAllFalse s0 = s0 ∧
    containModuleClear (reconfigureContainModule propAllFalse s0) ∧
    surfaceModuleClear (reconfigureSurfaceModule propAllFalse s0) := by
  have h := C5_inactive_module_preserved propAllFalse s0
  have h1 := h.1 rfl
  have h2 := h.2 rfl
  exact ⟨h1.1, h2.1, h1.2 (by simp [containModuleClear, s0]),
    h2.2 (by simp [surfaceModuleClear, s0])⟩

/-- C6: with the Surface module active, selecting any two-fuel-model
blending choice forces `isUserOutput` of every per-model intermediate
variable to false regardless of its "Calc" property, while with no
blending choice selected each of those variables takes its "Calc"
property. -/
theorem C6_twofuels_hides_intermediates (prop : PropertyDict) (s : EqStateR)
    (hact : prop "surfaceModuleActive" = true) :
    ((prop "surfaceConfFuelAreaWeighted" || prop "surfaceConfFuelHarmonicMean"
        || prop "surfaceConfFuel2Dimensional") = true →
      (reconfigureSurfaceModule prop s).vSurfaceFireHeatSource_isUserOutput = false ∧
      (reconfigureSurfaceModule prop s).vSurfaceFireReactionIntDead_isUserOutput = false ∧
      (reconfigureSurfaceModule prop s).vSurfaceFireReactionIntLive_isUserOutput = false ∧
      (reconfigureSurfaceModule prop s).vSurfaceFireMaxDirDiagram_isUserOutput = false ∧
      (reconfigureSurfaceModule prop s).vSurfaceFireCharacteristicsDiagram_isUserOutput = false ∧
      (reconfigureSurfaceModule prop s).vSurfaceFuelLoadTransferFraction_isUserOutput = false ∧
      (reconfigureSurfaceModule prop s).vSurfaceFuelLoadDead_isUserOutput = false ∧
      (reconfigureSurfaceModule prop s).vSurfaceFuelLoadDeadHerb_isUserOutput = false ∧
      (reconfigureSurfaceModule prop s).vSurfaceFuelLoadLive_isUserOutput = false ∧
      (reconfigureSurfaceModule prop s).vSurfaceFuelLoadUndeadHerb_isUserOutput = false ∧
      (reconfigureSurfaceModule prop s).vSurfaceFuelBedSigma_isUserOutput = false ∧
      (reconfigureSurfaceModule prop s).vSurfaceFuelBedPackingRatio_isUserOutput = false ∧
      (reconfigureSurfaceModule prop s).vSurfaceFuelBedBulkDensity_isUserOutput = false ∧
      (reconfigureSurfaceModule prop s).vSurfaceFuelBedBetaRatio_isUserOutput = false ∧
      (reconfigureSurfaceModule prop s).vSurfaceFuelBedDeadFraction_isUserOutput = false ∧
      (reconfigureSurfaceModule prop s).vSurfaceFuelBedLiveFraction_isUserOutput = false ∧
      (reconfigureSurfaceModule prop s).vSurfaceFuelBedHeatSink_isUserOutput = false ∧
      (reconfigureSurfaceModule prop s).vSurfaceFuelBedMoisDead_isUserOutput = false ∧
      (reconfigureSurfaceModule prop s).vSurfaceFuelBedMoisLive_isUserOutput = false ∧
      (reconfigureSurfaceModule prop s).vSurfaceFuelBedMextLive_isUserOutput = false ∧
      (reconfigureSurfaceModule prop s).vSurfaceFireResidenceTime_isUserOutput = false ∧
      (reconfigureSurfaceModule prop s).vSurfaceFireWindFactor_isUserOutput = false ∧
      (reconfigureSurfaceModule prop s).vSurfaceFireSlopeFactor_isUserOutput = false) ∧
    ((prop "surfaceConfFuelAreaWeighted" || prop "surfaceConfFuelHarmonicMean"
        || prop "surfaceConfFuel2Dimensional") = false →
      (reconfigureSurfaceModule prop s).vSurfaceFireHeatSource_isUserOutput
        = prop "surfaceCalcFireHeatSource" ∧
      (reconfigureSurfaceModule prop s).vSurfaceFireReactionIntDead_isUserOutput
        = prop "surfaceCalcFireReactionIntDead" ∧
      (reconfigureSurfaceModule prop s).vSurfaceFireReactionIntLive_isUserOutput
        = prop "surfaceCalcFireReactionIntLive" ∧
      (reconfigureSurfaceModule prop s).vSurfaceFireMaxDirDiagram_isUserOutput
        = prop "surfaceCalcFireMaxDirDiagram" ∧
      (reconfigureSurfaceModule prop s).vSurfaceFireCharacteristicsDiagram_isUserOutput
        = prop "surfaceCalcFireCharacteristicsDiagram" ∧
      (reconfigureSurfaceModule prop s).vSurfaceFuelLoadTransferFraction_isUserOutput
        = prop "surfaceCalcFuelLoadTransferFraction" ∧
      (reconfigureSurfaceModule prop s).vSurfaceFuelLoadDead_isUserOutput
        = prop "surfaceCalcFuelLoadDead" ∧
      (reconfigureSurfaceModule prop s).vSurfaceFuelLoadDeadHerb_isUserOutput
        = prop "surfaceCalcFuelLoadDeadHerb" ∧
      (reconfigureSurfaceModule prop s).vSurfaceFuelLoadLive_isUserOutput
        = prop "surfaceCalcFuelLoadLive" ∧
      (reconfigureSurfaceModule prop s).vSurfaceFuelLoadUndeadHerb_isUserOutput
        = prop "surfaceCalcFuelLoadUndeadHerb" ∧
      (reconfigureSurfaceModule prop s).vSurfaceFuelBedSigma_isUserOutput
        = prop "surfaceCalcFuelBedSigma" ∧
      (reconfigureSurfaceModule prop s).vSurfaceFuelBedPackingRatio_isUserOutput
        = prop "surfaceCalcFuelBedPackingRatio" ∧
      (reconfigureSurfaceModule prop s).vSurfaceFuelBedBulkDensity_isUserOutput
        = prop "surfaceCalcFuelBedBulkDensity" ∧
      (reconfigureSurfaceModule prop s).vSurfaceFuelBedBetaRatio_isUserOutput
        = prop "surfaceCalcFuelBedBetaRatio" ∧
      (reconfigureSurfaceModule prop s).vSurfaceFuelBedDeadFraction_isUserOutput
        = prop "surfaceCalcFuelBedDeadFraction" ∧
      (reconfigureSurfaceModule prop s).vSurfaceFuelBedLiveFraction_isUserOutput
        = prop "surfaceCalcFuelBedLiveFraction" ∧
      (reconfigureSurfaceModule prop s).vSurfaceFuelBedHeatSink_isUserOutput
        = prop "surfaceCalcFuelBedHeatSink" ∧
      (reconfigureSurfaceModule prop s).vSurfaceFuelBedMoisDead_isUserOutput
        = prop "surfaceCalcFuelBedMoisDead" ∧
      (reconfigureSurfaceModule prop s).vSurfaceFuelBedMoisLive_isUserOutput
        = prop "surfaceCalcFuelBedMoisLive" ∧
      (reconfigureSurfaceModule prop s).vSurfaceFuelBedMextLive_isUserOutput
        = prop "surfaceCalcFuelBedMextLive" ∧
      (reconfigureSurfaceModule prop s).vSurfaceFireResidenceTime_isUserOutput
        = prop "surfaceCalcFireResidenceTime" ∧
      (reconfigureSurfaceModule prop s).vSurfaceFireWindFactor_isUserOutput
        = prop "surfaceCalcFireWindFactor" ∧
      (reconfigureSurfaceModule prop s).vSurfaceFireSlopeFactor_isUserOutput
        = prop "surfaceCalcFireSlopeFactor") := by
  constructor <;> intro htf <;>
    simp [reconfigureSurfaceModule, hact, surfStageOutputs, htf]

/-- Witness for C6: Surface active with the harmonic-mean choice hides the
heat-source output; Surface active with no blending choice shows it from
its "Calc" property. -/
theorem C6_witness :
    (reconfigureSurfaceModule propTwoFuels s0).vSurfaceFireHeatSource_isUserOutput
      = false ∧
    (reconfigureSurfaceModule propOneFuel s0).vSurfaceFireHeatSource_isUserOutput
      = true ∧
    (reconfigureSurfaceModule propOneFuel s0).vSurfaceFireSlopeFactor_isUserOutput
      = false := by
  have h1 := (C6_twofuels_hides_intermediates propTwoFuels s0 (by decide)).1
    (by decide)
  have h2 := (C6_twofuels_hides_intermediates propOneFuel s0 (by decide)).2
    (by decide)
  obtain ⟨g1, g2, g3, g4, g5, g6, g7, g8, g9, g10, g11, g12, g13, g14, g15,
    g16, g17, g18, g19, g20, g21, g22, g23⟩ := h2
  refine ⟨h1.1, ?_, ?_⟩
  · rw [g1]; decide
  · rw [g23]; decide

end BehavePlus
